import Mathlib

/-!
Shallow embedding of the listing-lifecycle backend of the CHUKA marketplace
(final backend variant: the Express application with image upload support).
The data model, the authentication gate (`authenticateToken`), the login
handler, and the four product endpoints (create, update, delete, and the
client-driven mark-sold flow) are translated into pure Lean functions over an
explicit state holding the `products` table and the set of stored image blobs.
Side effects are recorded as an explicit event trace so that ordering claims
(store blob / unlink blob / database write) can be stated and settled.
-/

namespace Chuka

/-- Opaque reference to a stored image blob.  The multer disk-storage filename
`image_file-<Date.now()><ext>` is modelled as the pair of the timestamp value
(drawn from a monotone counter, mirroring the uniqueness the source comments
rely on) and the extension taken from the uploaded file's original name. -/
structure BlobRef where
  stamp : Nat
  ext : String
deriving DecidableEq, Repr

/-- A row of the `products` table. -/
structure Listing where
  id : Nat
  title : String
  price : ℚ
  category : String
  description : String
  image_url : Option BlobRef
  contact_number : String
  location : String
  seller_id : Nat
  sold : Bool
deriving DecidableEq, Repr

/-- Combined state of the relational store and the asset store.  `clock`
models `Date.now()` as used by the multer filename generator; `nextId` models
the auto-increment id of the `products` table. -/
structure DB where
  products : List Listing
  blobs : List BlobRef
  nextId : Nat
  clock : Nat
deriving DecidableEq, Repr

def initDB : DB := { products := [], blobs := [], nextId := 1, clock := 0 }

/-- A row of the `users` table (`password` holds the bcrypt hash). -/
structure User where
  id : Nat
  name : String
  email : String
  password : String
deriving DecidableEq, Repr

/-- Model of `bcrypt.hash(pw, 10)`: an injective tagging of the plaintext. -/
def bcryptHash (pw : String) : String := "bcrypt2a" ++ pw

/-- Model of `bcrypt.compare(pw, stored)`. -/
def bcryptCompare (pw stored : String) : Bool := stored == bcryptHash pw

/-- JS truthiness of an optional string body field (`!x` in the handlers):
an absent field and the empty string are falsy, everything else truthy. -/
def truthy : Option String → Bool
  | none => false
  | some s => s != ""

/-- The `x || fallback` defaulting used in the UPDATE statement: a falsy
(absent or empty) supplied value keeps the previous value. -/
def fieldOr (v : Option String) (old : String) : String :=
  match v with
  | none => old
  | some s => if s = "" then old else s

/-- The `price` body field together with its JS classification: absent
(`undefined`), present but empty, present but non-numeric (`parseFloat`
yields `NaN`), or a numeric string with value `q`. -/
inductive PriceField
  | undef
  | empty
  | nan
  | num (q : ℚ)
deriving DecidableEq, Repr

/-- JS truthiness of the price field (`!price`). -/
def PriceField.truthyP : PriceField → Bool
  | .undef => false
  | .empty => false
  | _ => true

/-- The `price !== undefined` test of the update handler. -/
def PriceField.supplied : PriceField → Bool
  | .undef => false
  | _ => true

/-- `parseFloat(price)` where `none` stands for `NaN`. -/
def PriceField.parse : PriceField → Option ℚ
  | .num q => some q
  | _ => none

/-- Metadata of a multipart file upload as seen by multer: the declared
content type, the extension of the original filename (`path.extname`), and
the byte size. -/
structure FileUpload where
  mimetype : String
  ext : String
  size : Nat
deriving DecidableEq, Repr

/-- ASCII lower-casing of one character (`toLowerCase` on extensions). -/
def charLower (c : Char) : Char :=
  if 65 ≤ c.toNat ∧ c.toNat ≤ 90 then Char.ofNat (c.toNat + 32) else c

/-- Character-list prefix test. -/
def chStartsWith : List Char → List Char → Bool
  | _, [] => true
  | [], _ :: _ => false
  | c :: cs, d :: ds => c == d && chStartsWith cs ds

/-- Character-list substring test. -/
def chContains : List Char → List Char → Bool
  | [], pat => chStartsWith [] pat
  | c :: cs, pat => chStartsWith (c :: cs) pat || chContains cs pat

/-- `pattern.test(s)` for a bare-word regex alternative: substring match. -/
def containsSub (s pat : String) : Bool := chContains s.data pat.data

/-- `s.toLowerCase()` restricted to its ASCII action. -/
def strLower (s : String) : String := ⟨s.data.map charLower⟩

/-- The regex `jpeg|jpg|png|gif` applied by the multer `fileFilter`. -/
def imageTypeTest (s : String) : Bool :=
  containsSub s "jpeg" || containsSub s "jpg" ||
    containsSub s "png" || containsSub s "gif"

/-- multer `fileFilter`: both the declared mimetype and the lower-cased
extension of the original name must match the image regex. -/
def fileFilterOk (f : FileUpload) : Bool :=
  imageTypeTest f.mimetype && imageTypeTest (strLower f.ext)

/-- The `limits.fileSize` bound: 5 * 1024 * 1024 bytes. -/
def MAX_FILE_SIZE : Nat := 5 * 1024 * 1024

def BASE_URL : String := "http://localhost:5000"

/-- The relative path `uploads/images/<filename>` stored in `image_url`. -/
def blobPath (r : BlobRef) : String :=
  "uploads/images/image_file-" ++ toString r.stamp ++ r.ext

/-- Decoration of a stored reference into a directly fetchable URL
(the handlers prepend `BASE_URL`). -/
def resolveUrl (r : BlobRef) : String := BASE_URL ++ "/" ++ blobPath r

/-- The product object serialized in a response body, with the image
reference already resolved to a full URL string. -/
structure RespProduct where
  id : Nat
  title : String
  price : ℚ
  category : String
  description : String
  image_url : Option String
  contact_number : String
  location : String
  seller_id : Nat
  sold : Bool
deriving DecidableEq, Repr

/-- An HTTP response: status, the `message` field of the JSON body, and the
optional `product` object included by the create endpoint. -/
structure Resp where
  status : Nat
  message : String
  productBody : Option RespProduct
deriving DecidableEq, Repr

/-- Observable side-effect events, in execution order. -/
inductive Ev
  | storeBlob (r : BlobRef)
  | unlinkBlob (r : BlobRef)
  | dbInsert (id : Nat)
  | dbUpdate (id : Nat)
  | dbDelete (id : Nat)
deriving DecidableEq, Repr

/-- Result of running one endpoint: the response, the final state, and the
trace of side-effect events. -/
structure RunResult where
  resp : Resp
  state : DB
  trace : List Ev
deriving DecidableEq, Repr

/-- Input to the authentication gate: no `Authorization` header, a header
whose token fails `jwt.verify` (invalid or expired), or a valid token
resolving to the given user id. -/
inductive AuthInput
  | noHeader
  | badToken
  | goodToken (uid : Nat)
deriving DecidableEq, Repr

/-- The `authenticateToken` middleware: missing token responds 401, a token
rejected by `jwt.verify` responds 403, otherwise the resolved user id is
attached and the handler runs. -/
def authenticateToken : AuthInput → Except Resp Nat
  | .noHeader =>
      .error { status := 401, message := "Authentication token required",
               productBody := none }
  | .badToken =>
      .error { status := 403, message := "Invalid or expired token",
               productBody := none }
  | .goodToken uid => .ok uid

/-- POST /api/login.  `SELECT * FROM users WHERE email = ?` then `rows[0]`;
an unknown email and a failed bcrypt comparison share one rejection branch. -/
def login (users : List User) (email password : Option String) : Resp :=
  if !(truthy email && truthy password) then
    { status := 400, message := "Please provide email and password",
      productBody := none }
  else
    match (users.filter (fun u => u.email == email.getD "")).head? with
    | none =>
        { status := 401, message := "Invalid credentials", productBody := none }
    | some u =>
        if bcryptCompare (password.getD "") u.password then
          { status := 200, message := "Logged in successfully",
            productBody := none }
        else
          { status := 401, message := "Invalid credentials", productBody := none }

/-- `SELECT * FROM products WHERE id = ? AND seller_id = ?` then `rows[0]`. -/
def findOwned (id uid : Nat) (l : List Listing) : Option Listing :=
  l.find? (fun p => p.id == id && p.seller_id == uid)

/-- The client-side `items.find(item => item.id === id)`. -/
def findById (id : Nat) (l : List Listing) : Option Listing :=
  l.find? (fun p => p.id == id)

/-- `UPDATE products SET ... WHERE id = ?`: every row with the id is
replaced by the updated row. -/
def replaceById (id : Nat) (row : Listing) (l : List Listing) : List Listing :=
  l.map (fun p => if p.id = id then row else p)

/-- `DELETE FROM products WHERE id = ?`. -/
def removeById (id : Nat) (l : List Listing) : List Listing :=
  l.filter (fun p => p.id != id)

/-- Response of the Express error path for a multer `fileFilter` rejection. -/
def uploadFilterErrorResp : Resp :=
  { status := 500,
    message := "Error: File upload only supports the following filetypes: jpeg jpg png gif",
    productBody := none }

/-- Response of the Express error path for a `LIMIT_FILE_SIZE` multer error. -/
def fileTooLargeResp : Resp :=
  { status := 500, message := "File too large", productBody := none }

/-- The multer stage of `upload.single`: the filter runs on the file header
before any bytes are written; an accepted file is written to disk (the blob
store) before the route handler executes, under a fresh timestamped name. -/
def multerStage (file : Option FileUpload) (s : DB) :
    Except Resp (Option BlobRef × DB × List Ev) :=
  match file with
  | none => .ok (none, s, [])
  | some f =>
      if fileFilterOk f = false then .error uploadFilterErrorResp
      else if MAX_FILE_SIZE < f.size then .error fileTooLargeResp
      else
        let r : BlobRef := { stamp := s.clock, ext := f.ext }
        .ok (some r,
             { s with blobs := (s.blobs ++ [r]), clock := s.clock + 1 },
             [Ev.storeBlob r])

/-- `fs.unlink(req.file.path)` on the compensating-cleanup branches. -/
def unlinkNew (upFile : Option BlobRef) (s : DB) (tr : List Ev) :
    DB × List Ev :=
  match upFile with
  | some r => ({ s with blobs := s.blobs.erase r }, tr ++ [Ev.unlinkBlob r])
  | none => (s, tr)

/-- Body of a create request (multipart text fields plus the optional file). -/
structure CreateReq where
  title : Option String
  price : PriceField
  category : Option String
  description : Option String
  contact_number : Option String
  location : Option String
  file : Option FileUpload
deriving DecidableEq, Repr

/-- The `!title || !price || ...` required-fields guard of the create
handler, as the conjunction of the individual truthiness tests. -/
def createRequiredOk (req : CreateReq) : Bool :=
  truthy req.title && req.price.truthyP && truthy req.category &&
    truthy req.description && truthy req.contact_number && truthy req.location

def missingFieldsResp : Resp :=
  { status := 400,
    message := "Missing required product fields: title, price, category, description, contact number, location.",
    productBody := none }

def badPriceResp : Resp :=
  { status := 400, message := "Price must be a valid positive number.",
    productBody := none }

/-- The decorated product object returned by the create endpoint. -/
def decorateRow (row : Listing) : RespProduct :=
  { id := row.id, title := row.title, price := row.price,
    category := row.category, description := row.description,
    image_url := row.image_url.map resolveUrl,
    contact_number := row.contact_number, location := row.location,
    seller_id := row.seller_id, sold := row.sold }

/-- Body of the POST /api/products handler, entered after `authenticateToken`
and the multer stage; `upFile` is `req.file` (whose blob is already stored),
`dbOk` models whether the INSERT statement succeeds. -/
def createHandler (uid : Nat) (req : CreateReq) (upFile : Option BlobRef)
    (dbOk : Bool) (s : DB) (tr : List Ev) : RunResult :=
  if createRequiredOk req = false then
    let c := unlinkNew upFile s tr
    { resp := missingFieldsResp, state := c.1, trace := c.2 }
  else
    match req.price.parse with
    | none =>
        let c := unlinkNew upFile s tr
        { resp := badPriceResp, state := c.1, trace := c.2 }
    | some q =>
        if q < 0 then
          let c := unlinkNew upFile s tr
          { resp := badPriceResp, state := c.1, trace := c.2 }
        else if dbOk then
          let row : Listing :=
            { id := s.nextId, title := (req.title).getD "", price := q,
              category := (req.category).getD "",
              description := (req.description).getD "",
              image_url := upFile,
              contact_number := (req.contact_number).getD "",
              location := (req.location).getD "",
              seller_id := uid, sold := false }
          { resp := { status := 201, message := "Product added successfully",
                      productBody := some (decorateRow row) },
            state := { s with products := (s.products ++ [row]),
                              nextId := s.nextId + 1 },
            trace := tr ++ [Ev.dbInsert s.nextId] }
        else
          let c := unlinkNew upFile s tr
          { resp := { status := 500, message := "Server error adding product",
                      productBody := none },
            state := c.1, trace := c.2 }

/-- POST /api/products: the gate, then the multer stage, then the handler. -/
def postProducts (auth : AuthInput) (req : CreateReq) (dbOk : Bool) (s : DB) :
    RunResult :=
  match authenticateToken auth with
  | .error r => { resp := r, state := s, trace := [] }
  | .ok uid =>
      match multerStage req.file s with
      | .error r => { resp := r, state := s, trace := [] }
      | .ok (upFile, s1, tr) => createHandler uid req upFile dbOk s1 tr

def notFoundResp : Resp :=
  { status := 404, message := "Product not found or not authorized",
    productBody := none }

/-- Body of an update request (partial fields, optional sold flag, optional
replacement image). -/
structure UpdateReq where
  title : Option String
  price : PriceField
  category : Option String
  description : Option String
  contact_number : Option String
  location : Option String
  sold : Option Bool
  file : Option FileUpload
deriving DecidableEq, Repr

/-- Body of the PUT /api/products/:id handler, entered after the gate and the
multer stage.  Mirrors the source order: ownership fetch, then (if a new
image was uploaded) immediate deletion of the old blob, then price
validation, then the UPDATE statement. -/
def updateHandler (uid id : Nat) (req : UpdateReq) (upFile : Option BlobRef)
    (dbOk : Bool) (s : DB) (tr : List Ev) : RunResult :=
  match findOwned id uid s.products with
  | none => { resp := notFoundResp, state := s, trace := tr }
  | some product =>
      let img : DB × List Ev × Option BlobRef :=
        match upFile with
        | some newRef =>
            match product.image_url with
            | some old =>
                if old ∈ s.blobs then
                  ({ s with blobs := s.blobs.erase old },
                   tr ++ [Ev.unlinkBlob old], some newRef)
                else (s, tr, some newRef)
            | none => (s, tr, some newRef)
        | none => (s, tr, product.image_url)
      let parsedPrice : Option ℚ :=
        if req.price.supplied then req.price.parse else some product.price
      match parsedPrice with
      | none =>
          let c := unlinkNew upFile img.1 img.2.1
          { resp := badPriceResp, state := c.1, trace := c.2 }
      | some q =>
          if q < 0 then
            let c := unlinkNew upFile img.1 img.2.1
            { resp := badPriceResp, state := c.1, trace := c.2 }
          else if dbOk then
            let row : Listing :=
              { product with
                title := fieldOr req.title product.title,
                price := q,
                category := fieldOr req.category product.category,
                description := fieldOr req.description product.description,
                image_url := img.2.2,
                contact_number := fieldOr req.contact_number product.contact_number,
                location := fieldOr req.location product.location,
                sold := (req.sold).getD product.sold }
            { resp := { status := 200,
                        message := "Product updated successfully",
                        productBody := none },
              state := { img.1 with products := replaceById id row img.1.products },
              trace := img.2.1 ++ [Ev.dbUpdate id] }
          else
            let c := unlinkNew upFile img.1 img.2.1
            { resp := { status := 500,
                        message := "Server error updating product",
                        productBody := none },
              state := c.1, trace := c.2 }

/-- PUT /api/products/:id. -/
def putProducts (auth : AuthInput) (id : Nat) (req : UpdateReq) (dbOk : Bool)
    (s : DB) : RunResult :=
  match authenticateToken auth with
  | .error r => { resp := r, state := s, trace := [] }
  | .ok uid =>
      match multerStage req.file s with
      | .error r => { resp := r, state := s, trace := [] }
      | .ok (upFile, s1, tr) => updateHandler uid id req upFile dbOk s1 tr

/-- DELETE /api/products/:id: ownership fetch, best-effort blob unlink, then
the row deletion (`dbOk` models whether the DELETE statement succeeds). -/
def deleteProducts (auth : AuthInput) (id : Nat) (dbOk : Bool) (s : DB) :
    RunResult :=
  match authenticateToken auth with
  | .error r => { resp := r, state := s, trace := [] }
  | .ok uid =>
      match findOwned id uid s.products with
      | none => { resp := notFoundResp, state := s, trace := [] }
      | some product =>
          let c : DB × List Ev :=
            match product.image_url with
            | some old =>
                if old ∈ s.blobs then
                  ({ s with blobs := s.blobs.erase old }, [Ev.unlinkBlob old])
                else (s, [])
            | none => (s, [])
          if dbOk then
            { resp := { status := 200, message := "Product deleted successfully",
                        productBody := none },
              state := { c.1 with products := removeById id c.1.products },
              trace := c.2 ++ [Ev.dbDelete id] }
          else
            { resp := { status := 500, message := "Server error deleting product",
                        productBody := none },
              state := c.1, trace := c.2 }

/-- The PUT body assembled by the client's `handleMarkSold`: every current
field is re-sent unchanged and `sold` is flipped; no file is attached. -/
def markSoldReq (item : Listing) : UpdateReq :=
  { title := some item.title, price := PriceField.num item.price,
    category := some item.category, description := some item.description,
    contact_number := some item.contact_number, location := some item.location,
    sold := some (!item.sold), file := none }

/-- Result of the mark-sold flow: `resp` is `none` when the client found no
item with the id and issued no request. -/
structure MarkResult where
  resp : Option Resp
  state : DB
  trace : List Ev
deriving DecidableEq, Repr

/-- The client `handleMarkSold` flow: look the item up in the fetched list,
then PUT the full field set with the sold flag negated. -/
def markSold (auth : AuthInput) (id : Nat) (dbOk : Bool) (s : DB) :
    MarkResult :=
  match findById id s.products with
  | none => { resp := none, state := s, trace := [] }
  | some item =>
      let r := putProducts auth id (markSoldReq item) dbOk s
      { resp := some r.resp, state := r.state, trace := r.trace }

/-- One invocation of a mutating operation, with its authentication input
and the success/failure of its database write. -/
inductive Op
  | createOp (auth : AuthInput) (req : CreateReq) (dbOk : Bool)
  | updateOp (auth : AuthInput) (id : Nat) (req : UpdateReq) (dbOk : Bool)
  | deleteOp (auth : AuthInput) (id : Nat) (dbOk : Bool)
  | sellOp (auth : AuthInput) (id : Nat) (dbOk : Bool)
deriving DecidableEq, Repr

def applyOp : Op → DB → DB
  | .createOp a r d, s => (postProducts a r d s).state
  | .updateOp a i r d, s => (putProducts a i r d s).state
  | .deleteOp a i d, s => (deleteProducts a i d s).state
  | .sellOp a i d, s => (markSold a i d s).state

def runOps (ops : List Op) (s : DB) : DB :=
  ops.foldl (fun t op => applyOp op t) s

/-- The dangling-reference check: every non-null `image_url` of a stored row
names a blob currently present in the asset store. -/
def danglingFree (s : DB) : Bool :=
  s.products.all (fun p =>
    match p.image_url with
    | none => true
    | some r => decide (r ∈ s.blobs))

/-- A price field that the handlers' validation rejects outright. -/
def priceBad : PriceField → Bool
  | .undef => false
  | .empty => true
  | .nan => true
  | .num q => decide (q < 0)

/-- The operations excluded by the amended dangling-reference claim: an
update that carries a new image and then fails (price validation or record
write), and a delete whose record deletion fails after the blob unlink. -/
def badOp : Op → Bool
  | .updateOp _ _ req dbOk => req.file.isSome && (priceBad req.price || !dbOk)
  | .deleteOp _ _ dbOk => !dbOk
  | _ => false

/-! ### Concrete fixtures shared by the counterexamples and witnesses -/

def demoFile : FileUpload := { mimetype := "image/png", ext := ".png", size := 100 }

def badTypeFile : FileUpload := { mimetype := "text/plain", ext := ".txt", size := 100 }

def demoCreate : CreateReq :=
  { title := some "Desk", price := PriceField.num 1500,
    category := some "Furniture", description := some "Wooden desk",
    contact_number := some "254712345678", location := some "Hostel B",
    file := some demoFile }

/-- State after user 1 creates the demo listing (with image) on a fresh DB. -/
def demoState : DB := (postProducts (AuthInput.goodToken 1) demoCreate true initDB).state

/-- An update body that only sets the sold flag. -/
def soldOnlyReq : UpdateReq :=
  { title := none, price := PriceField.undef, category := none,
    description := none, contact_number := none, location := none,
    sold := some true, file := none }

/-- An update body carrying a replacement image and an invalid price. -/
def newImageBadPriceReq : UpdateReq :=
  { title := none, price := PriceField.num (-5), category := none,
    description := none, contact_number := none, location := none,
    sold := none, file := some demoFile }

/-- An update body carrying a replacement image and no other changes. -/
def newImageReq : UpdateReq :=
  { title := none, price := PriceField.undef, category := none,
    description := none, contact_number := none, location := none,
    sold := none, file := some demoFile }

/-- The demo listing row as stored by the demo create. -/
def demoListing : Listing :=
  { id := 1, title := "Desk", price := 1500, category := "Furniture",
    description := "Wooden desk", image_url := some { stamp := 0, ext := ".png" },
    contact_number := "254712345678", location := "Hostel B",
    seller_id := 1, sold := false }

/-- The row inserted by a successful create. -/
def createRow (uid : Nat) (req : CreateReq) (u : Option BlobRef) (nid : Nat)
    (q : ℚ) : Listing :=
  { id := nid, title := (req.title).getD "", price := q,
    category := (req.category).getD "",
    description := (req.description).getD "",
    image_url := u,
    contact_number := (req.contact_number).getD "",
    location := (req.location).getD "",
    seller_id := uid, sold := false }

/-- Auxiliary invariant carried through the reachability induction: every
row reference names a stored blob, stored blobs are strictly older than the
clock, no two rows share a blob reference, row ids are bounded by and free
of duplicates below `nextId`, and stored prices are non-negative. -/
structure Good (s : DB) : Prop where
  dangling : ∀ p ∈ s.products, ∀ r : BlobRef, p.image_url = some r → r ∈ s.blobs
  fresh : ∀ b ∈ s.blobs, b.stamp < s.clock
  uniqueRef : ∀ p ∈ s.products, ∀ q ∈ s.products, ∀ r : BlobRef,
    p.image_url = some r → q.image_url = some r → p = q
  idBound : ∀ p ∈ s.products, p.id < s.nextId
  idNodup : (s.products.map Listing.id).Nodup
  priceNonneg : ∀ p ∈ s.products, 0 ≤ p.price


/-! ### C5 -/

/-- C5 counterexample: a present but invalid/expired token is answered with
HTTP 403 ("Invalid or expired token"), not with the claimed 401, so the claim
that both missing and invalid tokens map to 401 is false on the code. -/
theorem c5_counterexample :
    authenticateToken AuthInput.badToken =
      Except.error { status := 403, message := "Invalid or expired token",
                     productBody := none } ∧ (403 : Nat) ≠ 401 := by
  exact ⟨rfl, by decide⟩

/-- C5 (amended): the gate rejects a missing Authorization header with 401
and an invalid or expired token with 403; in either case every mutating
endpoint leaves the state untouched, produces no side-effect event, and the
handler (the Listing Service) is never reached. -/
theorem c5_amended (s : DB) (creq : CreateReq) (ureq : UpdateReq) (id : Nat)
    (dbOk : Bool) :
    (postProducts AuthInput.noHeader creq dbOk s).resp.status = 401 ∧
    (postProducts AuthInput.noHeader creq dbOk s).state = s ∧
    (postProducts AuthInput.noHeader creq dbOk s).trace = [] ∧
    (postProducts AuthInput.badToken creq dbOk s).resp.status = 403 ∧
    (postProducts AuthInput.badToken creq dbOk s).resp.message = "Invalid or expired token" ∧
    (postProducts AuthInput.badToken creq dbOk s).state = s ∧
    (postProducts AuthInput.badToken creq dbOk s).trace = [] ∧
    (putProducts AuthInput.noHeader id ureq dbOk s).resp.status = 401 ∧
    (putProducts AuthInput.noHeader id ureq dbOk s).state = s ∧
    (putProducts AuthInput.badToken id ureq dbOk s).resp.status = 403 ∧
    (putProducts AuthInput.badToken id ureq dbOk s).state = s ∧
    (deleteProducts AuthInput.noHeader id dbOk s).resp.status = 401 ∧
    (deleteProducts AuthInput.noHeader id dbOk s).state = s ∧
    (deleteProducts AuthInput.badToken id dbOk s).resp.status = 403 ∧
    (deleteProducts AuthInput.badToken id dbOk s).state = s :=
  ⟨rfl, rfl, rfl, rfl, rfl, rfl, rfl, rfl, rfl, rfl, rfl, rfl, rfl, rfl, rfl⟩

/-! ### C10 -/

/-- C10 (confirmed): with non-empty credentials, a login attempt with an
unknown email and one with a known email but wrong password receive the
observably identical response 401 "Invalid credentials", so account
existence cannot be inferred from the login result. -/
theorem c10_login_indistinguishable (users : List User)
    (e1 p1 e2 p2 : String) (u : User)
    (he1 : e1 ≠ "") (hp1 : p1 ≠ "") (he2 : e2 ≠ "") (hp2 : p2 ≠ "")
    (hunknown : ∀ v ∈ users, v.email ≠ e1)
    (hfound : (users.filter (fun v => v.email == e2)).head? = some u)
    (hwrong : u.password ≠ bcryptHash p2) :
    login users (some e1) (some p1) = login users (some e2) (some p2) ∧
    login users (some e1) (some p1) =
      { status := 401, message := "Invalid credentials", productBody := none } := by
  have hf1 : users.filter (fun v => v.email == e1) = [] := by
    rw [List.filter_eq_nil_iff]
    intro v hv
    simpa using hunknown v hv
  have h1 : login users (some e1) (some p1) =
      { status := 401, message := "Invalid credentials", productBody := none } := by
    simp [login, truthy, he1, hp1, hf1]
  have h2 : login users (some e2) (some p2) =
      { status := 401, message := "Invalid credentials", productBody := none } := by
    simp [login, truthy, he2, hp2, hfound, bcryptCompare, hwrong]
  exact ⟨h1.trans h2.symm, h1⟩

/-- C10 witness: the two indistinguishable 401 responses at a concrete
one-user store. -/
theorem c10_witness :
    login [{ id := 1, name := "Alice", email := "alice@chuka", password := bcryptHash "pw" }]
        (some "bob@chuka") (some "anything") =
      login [{ id := 1, name := "Alice", email := "alice@chuka", password := bcryptHash "pw" }]
        (some "alice@chuka") (some "wrong") ∧
    login [{ id := 1, name := "Alice", email := "alice@chuka", password := bcryptHash "pw" }]
        (some "bob@chuka") (some "anything") =
      { status := 401, message := "Invalid credentials", productBody := none } :=
  c10_login_indistinguishable
    [{ id := 1, name := "Alice", email := "alice@chuka", password := bcryptHash "pw" }]
    "bob@chuka" "anything" "alice@chuka" "wrong"
    { id := 1, name := "Alice", email := "alice@chuka", password := bcryptHash "pw" }
    (by decide) (by decide) (by decide) (by decide)
    (by decide) (by decide) (by decide)

/-! ### C7 -/

/-- C7 counterexample: a create request carrying a disallowed image type
(text/plain) is rejected, but the failure surfaces through the default
error path with HTTP status 500, not as the ValidationError (400) the claim
asserts — there is no upload-error middleware mapping it to 400 — so the
claim's error class is false on the code. -/
theorem c7_counterexample :
    (postProducts (AuthInput.goodToken 1)
        { demoCreate with file := some badTypeFile } true demoState).resp.status =
      500 ∧
    (500 : Nat) ≠ 400 := by
  exact ⟨by decide, by decide⟩

/-- C7 (amended): a create request whose image fails the content-type
allow-list or exceeds the 5 MiB limit is rejected by the upload stage before
any write, surfacing as a generic 500 error (not a 400 ValidationError): the
request fails, no blob is stored, no row is written, and no side-effect
event occurs (so no orphan blob exists afterwards). -/
theorem c7_upload_rejected (s : DB) (uid : Nat) (req : CreateReq)
    (dbOk : Bool) (f : FileUpload)
    (hf : req.file = some f)
    (hrej : fileFilterOk f = false ∨ MAX_FILE_SIZE < f.size) :
    (postProducts (AuthInput.goodToken uid) req dbOk s).resp.status = 500 ∧
    (postProducts (AuthInput.goodToken uid) req dbOk s).resp.productBody = none ∧
    (postProducts (AuthInput.goodToken uid) req dbOk s).state = s ∧
    (postProducts (AuthInput.goodToken uid) req dbOk s).trace = [] := by
  unfold postProducts authenticateToken
  simp only [multerStage, hf]
  rcases hrej with h | h
  · simp [h, uploadFilterErrorResp]
  · rcases hff : fileFilterOk f with _ | _
    · simp [uploadFilterErrorResp]
    · simp [hff, h, fileTooLargeResp, Nat.not_le_of_lt h]

/-- C7 witness: a concrete rejected upload (text/plain) changes nothing. -/
theorem c7_witness :
    (postProducts (AuthInput.goodToken 1)
        { demoCreate with file := some badTypeFile } true demoState).resp.status = 500 ∧
    (postProducts (AuthInput.goodToken 1)
        { demoCreate with file := some badTypeFile } true demoState).resp.productBody = none ∧
    (postProducts (AuthInput.goodToken 1)
        { demoCreate with file := some badTypeFile } true demoState).state = demoState ∧
    (postProducts (AuthInput.goodToken 1)
        { demoCreate with file := some badTypeFile } true demoState).trace = [] :=
  c7_upload_rejected demoState 1 { demoCreate with file := some badTypeFile }
    true badTypeFile rfl (Or.inl (by decide))

/-! ### C8 -/

/-- C8 counterexample: a successful update (marking the demo listing sold)
responds with status 200 and a bare success message whose product body is
`none` — the updated Listing, decorated or not, is not returned, so the
claim that update returns the updated Listing is false on the code. -/
theorem c8_counterexample :
    (putProducts (AuthInput.goodToken 1) 1 soldOnlyReq true demoState).resp =
      { status := 200, message := "Product updated successfully",
        productBody := none } := by
  decide

/-- Helper: every response of the update handler is one of four literals. -/
theorem updateHandler_resp_cases (uid id : Nat) (req : UpdateReq)
    (upFile : Option BlobRef) (dbOk : Bool) (s : DB) (tr : List Ev) :
    (updateHandler uid id req upFile dbOk s tr).resp = notFoundResp ∨
    (updateHandler uid id req upFile dbOk s tr).resp = badPriceResp ∨
    (updateHandler uid id req upFile dbOk s tr).resp =
      { status := 200, message := "Product updated successfully",
        productBody := none } ∨
    (updateHandler uid id req upFile dbOk s tr).resp =
      { status := 500, message := "Server error updating product",
        productBody := none } := by
  unfold updateHandler
  split
  · exact Or.inl rfl
  · dsimp only
    split
    · exact Or.inr (Or.inl rfl)
    · split
      · exact Or.inr (Or.inl rfl)
      · split
        · exact Or.inr (Or.inr (Or.inl rfl))
        · exact Or.inr (Or.inr (Or.inr rfl))

/-- Helper: a multer-stage rejection always carries status 500. -/
theorem multerStage_error_status (file : Option FileUpload) (s : DB) (r : Resp)
    (h : multerStage file s = .error r) : r.status = 500 := by
  rcases file with _ | f
  · simp only [multerStage] at h
    exact Except.noConfusion h
  · simp only [multerStage] at h
    split at h
    · injection h with h2
      rw [← h2]
      rfl
    · split at h
      · injection h with h2
        rw [← h2]
        rfl
      · exact Except.noConfusion h

/-- C8 (amended): a successful update call returns HTTP 200 with only the
message "Product updated successfully"; no Listing object (and hence no
decorated image URL) is included in the response body. -/
theorem c8_amended (auth : AuthInput) (id : Nat) (req : UpdateReq)
    (dbOk : Bool) (s : DB)
    (hok : (putProducts auth id req dbOk s).resp.status = 200) :
    (putProducts auth id req dbOk s).resp =
      { status := 200, message := "Product updated successfully",
        productBody := none } := by
  rcases auth with _ | _ | uid
  · simp [putProducts, authenticateToken] at hok
  · simp [putProducts, authenticateToken] at hok
  · rcases hm : multerStage req.file s with r | ⟨upFile, s1, tr⟩
    · have h500 := multerStage_error_status req.file s r hm
      simp only [putProducts, authenticateToken, hm] at hok
      rw [h500] at hok
      exact absurd hok (by decide)
    · have hcases := updateHandler_resp_cases uid id req upFile dbOk s1 tr
      simp only [putProducts, authenticateToken, hm] at hok ⊢
      rcases hcases with h | h | h | h
      · rw [h] at hok
        exact absurd hok (by decide)
      · rw [h] at hok
        exact absurd hok (by decide)
      · exact h
      · rw [h] at hok
        exact absurd hok (by decide)

/-- C8 witness: the amended statement at the concrete demo update. -/
theorem c8_witness :
    (putProducts (AuthInput.goodToken 1) 1 soldOnlyReq true demoState).resp =
      { status := 200, message := "Product updated successfully",
        productBody := none } :=
  c8_amended (AuthInput.goodToken 1) 1 soldOnlyReq true demoState (by decide)

/-! ### Shared helper lemmas -/

theorem unlinkNew_products (u : Option BlobRef) (s : DB) (tr : List Ev) :
    (unlinkNew u s tr).1.products = s.products := by
  cases u <;> rfl

/-- Helper: an accepted upload is stored under a fresh timestamped name. -/
theorem multerStage_accepts (f : FileUpload) (s : DB)
    (h1 : fileFilterOk f = true) (h2 : f.size ≤ MAX_FILE_SIZE) :
    multerStage (some f) s =
      .ok (some { stamp := s.clock, ext := f.ext },
           { s with blobs := (s.blobs ++ [{ stamp := s.clock, ext := f.ext }]),
                    clock := s.clock + 1 },
           [Ev.storeBlob { stamp := s.clock, ext := f.ext }]) := by
  simp only [multerStage]
  rw [if_neg (by simp [h1]), if_neg (Nat.not_lt.mpr h2)]

/-- Helper: any create whose validation fails responds 400 and ends in the
compensating-unlink state. -/
theorem createHandler_reject (uid : Nat) (req : CreateReq) (u : Option BlobRef)
    (dbOk : Bool) (s : DB) (tr : List Ev)
    (hbad : createRequiredOk req = false ∨ req.price.parse = none ∨
      ∃ q, req.price.parse = some q ∧ q < 0) :
    (createHandler uid req u dbOk s tr).resp.status = 400 ∧
    (createHandler uid req u dbOk s tr).state = (unlinkNew u s tr).1 ∧
    (createHandler uid req u dbOk s tr).trace = (unlinkNew u s tr).2 := by
  unfold createHandler
  rcases hreq : createRequiredOk req with _ | _
  · rw [if_pos rfl]
    exact ⟨rfl, rfl, rfl⟩
  · rw [if_neg (by simp)]
    rcases hbad with hcase | hnone | ⟨q, hq, hlt⟩
    · rw [hcase] at hreq
      exact absurd hreq (by simp)
    · rw [hnone]
      exact ⟨rfl, rfl, rfl⟩
    · rw [hq]
      dsimp only
      rw [if_pos hlt]
      exact ⟨rfl, rfl, rfl⟩

/-- Helper: a fully valid create inserts exactly one row. -/
theorem createHandler_success (uid : Nat) (req : CreateReq) (u : Option BlobRef)
    (s : DB) (tr : List Ev) (q : ℚ)
    (hq : req.price = PriceField.num q) (h0 : 0 ≤ q)
    (hreq : createRequiredOk req = true) :
    createHandler uid req u true s tr =
      { resp := { status := 201, message := "Product added successfully",
                  productBody := some (decorateRow (createRow uid req u s.nextId q)) },
        state := { s with products := (s.products ++ [createRow uid req u s.nextId q]),
                          nextId := s.nextId + 1 },
        trace := tr ++ [Ev.dbInsert s.nextId] } := by
  unfold createHandler
  rw [if_neg (by simp [hreq]), hq]
  dsimp only [PriceField.parse]
  rw [if_neg (not_lt.mpr h0)]
  rfl

/-! ### C6 -/

/-- C6 (confirmed): a create request with a NaN or negative price is
rejected with 400 and writes no row; a create request with a valid
non-negative price `q` (and all required fields) stores a row whose price is
exactly `q` and returns a product body whose price is exactly `q`. -/
theorem c6_price_semantics (s : DB) (uid : Nat) (req : CreateReq) (dbOk : Bool)
    (hfile : ∀ f, req.file = some f →
      fileFilterOk f = true ∧ f.size ≤ MAX_FILE_SIZE) :
    ((req.price.parse = none ∨ ∃ q, req.price.parse = some q ∧ q < 0) →
      (postProducts (AuthInput.goodToken uid) req dbOk s).resp.status = 400 ∧
      (postProducts (AuthInput.goodToken uid) req dbOk s).state.products =
        s.products) ∧
    (∀ q : ℚ, req.price = PriceField.num q → 0 ≤ q →
      createRequiredOk req = true → dbOk = true →
      (postProducts (AuthInput.goodToken uid) req dbOk s).resp.status = 201 ∧
      (∃ row : Listing,
        (postProducts (AuthInput.goodToken uid) req dbOk s).state.products =
          s.products ++ [row] ∧ row.price = q) ∧
      (∃ pb : RespProduct,
        (postProducts (AuthInput.goodToken uid) req dbOk s).resp.productBody =
          some pb ∧ pb.price = q)) := by
  constructor
  · intro hbad
    rcases hf : req.file with _ | f
    · have h := createHandler_reject uid req none dbOk s [] (Or.inr hbad)
      simp only [postProducts, authenticateToken, multerStage, hf]
      exact ⟨h.1, (h.2.1 ▸ rfl : (createHandler uid req none dbOk s []).state.products = s.products)⟩
    · obtain ⟨h1, h2⟩ := hfile f hf
      have hms := multerStage_accepts f s h1 h2
      have h := createHandler_reject uid req
        (some { stamp := s.clock, ext := f.ext }) dbOk
        { s with blobs := (s.blobs ++ [{ stamp := s.clock, ext := f.ext }]),
                 clock := s.clock + 1 }
        [Ev.storeBlob { stamp := s.clock, ext := f.ext }] (Or.inr hbad)
      simp only [postProducts, authenticateToken, hf, hms]
      refine ⟨h.1, ?_⟩
      rw [h.2.1, unlinkNew_products]
  · intro q hq h0 hreq hdb
    subst hdb
    rcases hf : req.file with _ | f
    · have h := createHandler_success uid req none s [] q hq h0 hreq
      simp only [postProducts, authenticateToken, multerStage, hf, h]
      exact ⟨by simp [h], ⟨createRow uid req none s.nextId q, rfl, rfl⟩,
        ⟨decorateRow (createRow uid req none s.nextId q), rfl, rfl⟩⟩
    · obtain ⟨h1, h2⟩ := hfile f hf
      have hms := multerStage_accepts f s h1 h2
      have h := createHandler_success uid req
        (some { stamp := s.clock, ext := f.ext })
        { s with blobs := (s.blobs ++ [{ stamp := s.clock, ext := f.ext }]),
                 clock := s.clock + 1 }
        [Ev.storeBlob { stamp := s.clock, ext := f.ext }] q hq h0 hreq
      simp only [postProducts, authenticateToken, hf, hms, h]
      exact ⟨by simp [h],
        ⟨createRow uid req (some { stamp := s.clock, ext := f.ext }) s.nextId q,
          rfl, rfl⟩,
        ⟨decorateRow (createRow uid req (some { stamp := s.clock, ext := f.ext })
            s.nextId q), rfl, rfl⟩⟩

/-- C6 witness: the price semantics at the concrete demo create request. -/
theorem c6_witness :
    (((demoCreate.price.parse = none ∨
        ∃ q, demoCreate.price.parse = some q ∧ q < 0) →
      (postProducts (AuthInput.goodToken 1) demoCreate true initDB).resp.status = 400 ∧
      (postProducts (AuthInput.goodToken 1) demoCreate true initDB).state.products =
        initDB.products) ∧
    (∀ q : ℚ, demoCreate.price = PriceField.num q → 0 ≤ q →
      createRequiredOk demoCreate = true → true = true →
      (postProducts (AuthInput.goodToken 1) demoCreate true initDB).resp.status = 201 ∧
      (∃ row : Listing,
        (postProducts (AuthInput.goodToken 1) demoCreate true initDB).state.products =
          initDB.products ++ [row] ∧ row.price = q) ∧
      (∃ pb : RespProduct,
        (postProducts (AuthInput.goodToken 1) demoCreate true initDB).resp.productBody =
          some pb ∧ pb.price = q))) :=
  c6_price_semantics initDB 1 demoCreate true
    (fun f hf => by
      injection hf with h
      subst h
      exact ⟨by decide, by decide⟩)

/-! ### C4 -/

/-- C4 (confirmed): when every listing with the requested id belongs to a
user other than the caller `A`, an update, a delete, and a mark-sold attempt
by `A` each answer 404 "Product not found or not authorized", and the
products table is left unchanged. -/
theorem c4_ownership (s : DB) (A id : Nat) (item : Listing) (ureq : UpdateReq)
    (dbOk : Bool)
    (hmem : item ∈ s.products) (hid : item.id = id)
    (hOwn : ∀ p ∈ s.products, p.id = id → p.seller_id ≠ A)
    (hfile : ∀ f, ureq.file = some f →
      fileFilterOk f = true ∧ f.size ≤ MAX_FILE_SIZE) :
    (putProducts (AuthInput.goodToken A) id ureq dbOk s).resp = notFoundResp ∧
    (putProducts (AuthInput.goodToken A) id ureq dbOk s).state.products =
      s.products ∧
    (deleteProducts (AuthInput.goodToken A) id dbOk s).resp = notFoundResp ∧
    (deleteProducts (AuthInput.goodToken A) id dbOk s).state = s ∧
    (∃ rm, (markSold (AuthInput.goodToken A) id dbOk s).resp = some rm ∧
      rm = notFoundResp) ∧
    (markSold (AuthInput.goodToken A) id dbOk s).state = s := by
  have hnone : findOwned id A s.products = none := by
    rw [findOwned, List.find?_eq_none]
    intro p hp
    simp only [Bool.and_eq_true, beq_iff_eq, not_and]
    exact fun h1 h2 => hOwn p hp h1 h2
  have hsome : (findById id s.products).isSome := by
    rw [findById, List.find?_isSome]
    exact ⟨item, hmem, by simp [hid]⟩
  obtain ⟨item0, hitem0⟩ := Option.isSome_iff_exists.mp hsome
  have hupd : (putProducts (AuthInput.goodToken A) id ureq dbOk s).resp =
      notFoundResp ∧
      (putProducts (AuthInput.goodToken A) id ureq dbOk s).state.products =
        s.products := by
    rcases hf : ureq.file with _ | f
    · constructor
      · simp [putProducts, authenticateToken, multerStage, hf, updateHandler, hnone]
      · simp [putProducts, authenticateToken, multerStage, hf, updateHandler, hnone]
    · obtain ⟨h1, h2⟩ := hfile f hf
      have hms := multerStage_accepts f s h1 h2
      constructor
      · simp [putProducts, authenticateToken, hf, hms, updateHandler, hnone]
      · simp [putProducts, authenticateToken, hf, hms, updateHandler, hnone]
  refine ⟨hupd.1, hupd.2, ?_, ?_, ?_, ?_⟩
  · simp [deleteProducts, authenticateToken, hnone]
  · simp [deleteProducts, authenticateToken, hnone]
  · exact ⟨notFoundResp,
      by simp [markSold, hitem0, putProducts, authenticateToken, multerStage,
        markSoldReq, updateHandler, hnone], rfl⟩
  · simp [markSold, hitem0, putProducts, authenticateToken, multerStage,
      markSoldReq, updateHandler, hnone]

/-- C4 witness: user 2 cannot touch the demo listing of user 1. -/
theorem c4_witness :
    (putProducts (AuthInput.goodToken 2) 1 soldOnlyReq true demoState).resp =
      notFoundResp ∧
    (putProducts (AuthInput.goodToken 2) 1 soldOnlyReq true demoState).state.products =
      demoState.products ∧
    (deleteProducts (AuthInput.goodToken 2) 1 true demoState).resp = notFoundResp ∧
    (deleteProducts (AuthInput.goodToken 2) 1 true demoState).state = demoState ∧
    (∃ rm, (markSold (AuthInput.goodToken 2) 1 true demoState).resp = some rm ∧
      rm = notFoundResp) ∧
    (markSold (AuthInput.goodToken 2) 1 true demoState).state = demoState :=
  c4_ownership demoState 2 1
    { id := 1, title := "Desk", price := 1500, category := "Furniture",
      description := "Wooden desk",
      image_url := some { stamp := 0, ext := ".png" },
      contact_number := "254712345678", location := "Hostel B",
      seller_id := 1, sold := false }
    soldOnlyReq true (by decide) (by decide) (by decide)
    (fun f hf => Option.noConfusion hf)

/-- Helper: erasing a fresh element appended at the end restores the list. -/
theorem erase_append_fresh (l : List BlobRef) (r : BlobRef) (h : r ∉ l) :
    (l ++ [r]).erase r = l := by
  induction l with
  | nil => simp
  | cons a t ih =>
      have hne : a ≠ r := by
        intro e
        exact h (e ▸ List.mem_cons_self a t)
      have ht : r ∉ t := fun hm => h (List.mem_cons_of_mem a hm)
      simp only [List.cons_append, List.erase_cons]
      rw [if_neg (by simp [hne])]
      rw [ih ht]

/-! ### C3 -/

/-- C3 counterexample: a create request carrying a valid image but a missing
title is rejected with 400, yet its trace contains a blob-store event: the
upload stage wrote the blob to the asset store before validation ran, so the
claim that no blob is ever written for a validation-failing create is false
on the code. -/
theorem c3_counterexample :
    (postProducts (AuthInput.goodToken 1) { demoCreate with title := none }
        true initDB).resp.status = 400 ∧
    Ev.storeBlob { stamp := 0, ext := ".png" } ∈
      (postProducts (AuthInput.goodToken 1) { demoCreate with title := none }
        true initDB).trace := by
  decide

/-- C3 (amended): a create request that fails validation is rejected with
400 and writes no row, and although an accompanying (accepted) image blob is
stored by the upload stage before validation, the handler deletes it as a
compensating action, so the asset store is restored and no blob remains:
the trace is exactly a store followed by an unlink of the same fresh blob. -/
theorem c3_amended (s : DB) (uid : Nat) (req : CreateReq) (dbOk : Bool)
    (f : FileUpload)
    (hf : req.file = some f)
    (hacc : fileFilterOk f = true ∧ f.size ≤ MAX_FILE_SIZE)
    (hfresh : ∀ b ∈ s.blobs, b.stamp < s.clock)
    (hbad : createRequiredOk req = false ∨ req.price.parse = none ∨
      ∃ q, req.price.parse = some q ∧ q < 0) :
    (postProducts (AuthInput.goodToken uid) req dbOk s).resp.status = 400 ∧
    (postProducts (AuthInput.goodToken uid) req dbOk s).state.products =
      s.products ∧
    (postProducts (AuthInput.goodToken uid) req dbOk s).state.blobs = s.blobs ∧
    (postProducts (AuthInput.goodToken uid) req dbOk s).trace =
      [Ev.storeBlob { stamp := s.clock, ext := f.ext },
       Ev.unlinkBlob { stamp := s.clock, ext := f.ext }] := by
  have hms := multerStage_accepts f s hacc.1 hacc.2
  have hnm : ({ stamp := s.clock, ext := f.ext } : BlobRef) ∉ s.blobs := by
    intro hmem
    exact absurd (hfresh _ hmem) (lt_irrefl s.clock)
  have h := createHandler_reject uid req
    (some { stamp := s.clock, ext := f.ext }) dbOk
    { s with blobs := (s.blobs ++ [{ stamp := s.clock, ext := f.ext }]),
             clock := s.clock + 1 }
    [Ev.storeBlob { stamp := s.clock, ext := f.ext }] hbad
  simp only [postProducts, authenticateToken, hf, hms]
  refine ⟨h.1, ?_, ?_, ?_⟩
  · rw [h.2.1]
    exact unlinkNew_products _ _ _
  · rw [h.2.1]
    simp only [unlinkNew]
    exact erase_append_fresh s.blobs _ hnm
  · rw [h.2.2]
    rfl

/-- C3 witness: the amended statement at the concrete missing-title create. -/
theorem c3_witness :
    (postProducts (AuthInput.goodToken 1) { demoCreate with title := none }
        true initDB).resp.status = 400 ∧
    (postProducts (AuthInput.goodToken 1) { demoCreate with title := none }
        true initDB).state.products = initDB.products ∧
    (postProducts (AuthInput.goodToken 1) { demoCreate with title := none }
        true initDB).state.blobs = initDB.blobs ∧
    (postProducts (AuthInput.goodToken 1) { demoCreate with title := none }
        true initDB).trace =
      [Ev.storeBlob { stamp := initDB.clock, ext := demoFile.ext },
       Ev.unlinkBlob { stamp := initDB.clock, ext := demoFile.ext }] :=
  c3_amended initDB 1 { demoCreate with title := none } true demoFile rfl
    ⟨by decide, by decide⟩ (fun b hb => absurd hb (List.not_mem_nil b))
    (Or.inl (by decide))

/-! ### C2 -/

/-- C2 counterexample: a successful image-replacing update of the demo
listing produces the trace store-new, unlink-old, db-update: the old blob is
deleted before the record update is persisted, so the claim that the old
blob is deleted only after the record update succeeds is false on the code. -/
theorem c2_counterexample :
    (putProducts (AuthInput.goodToken 1) 1 newImageReq true demoState).trace =
      [Ev.storeBlob { stamp := 1, ext := ".png" },
       Ev.unlinkBlob { stamp := 0, ext := ".png" },
       Ev.dbUpdate 1] ∧
    (putProducts (AuthInput.goodToken 1) 1 newImageReq true demoState).resp.status =
      200 := by
  decide

/-- C2 (amended): for an update that supplies a new image on an owned
listing with an existing image, the new blob is stored first, but the old
blob is deleted immediately after the ownership fetch and before the record
update is persisted: the trace is exactly store-new, unlink-old, db-update. -/
theorem c2_amended (s : DB) (uid id : Nat) (req : UpdateReq) (f : FileUpload)
    (product : Listing) (old : BlobRef) (q : ℚ)
    (hf : req.file = some f)
    (hacc : fileFilterOk f = true ∧ f.size ≤ MAX_FILE_SIZE)
    (hfind : findOwned id uid s.products = some product)
    (himg : product.image_url = some old)
    (hold : old ∈ s.blobs)
    (hq : (if req.price.supplied then req.price.parse else some product.price) =
      some q)
    (h0 : 0 ≤ q) :
    (putProducts (AuthInput.goodToken uid) id req true s).trace =
      [Ev.storeBlob { stamp := s.clock, ext := f.ext }, Ev.unlinkBlob old,
       Ev.dbUpdate id] ∧
    (putProducts (AuthInput.goodToken uid) id req true s).resp.status = 200 := by
  have hms := multerStage_accepts f s hacc.1 hacc.2
  simp only [putProducts, authenticateToken, hf, hms]
  unfold updateHandler
  dsimp only
  rw [hfind]
  dsimp only
  rw [himg]
  dsimp only
  rw [if_pos (List.mem_append_left _ hold)]
  rw [hq]
  dsimp only
  rw [if_neg (not_lt.mpr h0)]
  rw [if_pos rfl]
  exact ⟨rfl, rfl⟩

/-- C2 witness: the amended ordering at the concrete demo update. -/
theorem c2_witness :
    (putProducts (AuthInput.goodToken 1) 1 newImageReq true demoState).trace =
      [Ev.storeBlob { stamp := demoState.clock, ext := demoFile.ext },
       Ev.unlinkBlob { stamp := 0, ext := ".png" },
       Ev.dbUpdate 1] ∧
    (putProducts (AuthInput.goodToken 1) 1 newImageReq true demoState).resp.status =
      200 :=
  c2_amended demoState 1 1 newImageReq demoFile
    { id := 1, title := "Desk", price := 1500, category := "Furniture",
      description := "Wooden desk",
      image_url := some { stamp := 0, ext := ".png" },
      contact_number := "254712345678", location := "Hostel B",
      seller_id := 1, sold := false }
    { stamp := 0, ext := ".png" } 1500 rfl ⟨by decide, by decide⟩
    (by decide) rfl (by decide) (by decide) (by decide)

/-! ### Helper lemmas for the mark-sold flow -/

theorem fieldOr_self (a : String) : fieldOr (some a) a = a := by
  show (if a = "" then a else a) = a
  split <;> rfl

theorem findById_cons (id : Nat) (a : Listing) (t : List Listing) :
    findById id (a :: t) =
      (bif a.id == id then some a else findById id t) := rfl

theorem findOwned_cons (id uid : Nat) (a : Listing) (t : List Listing) :
    findOwned id uid (a :: t) =
      (bif a.id == id && a.seller_id == uid then some a
       else findOwned id uid t) := rfl

theorem replaceById_cons (id : Nat) (row a : Listing) (t : List Listing) :
    replaceById id row (a :: t) =
      (if a.id = id then row else a) :: replaceById id row t := rfl

/-- Helper: the ownership-scoped lookup agrees with the id lookup when the
first id match belongs to the caller. -/
theorem findOwned_of_findById (id uid : Nat) (l : List Listing)
    (item : Listing) (hfind : findById id l = some item)
    (howner : item.seller_id = uid) :
    findOwned id uid l = some item := by
  induction l with
  | nil => simp [findById] at hfind
  | cons a t ih =>
      rw [findById_cons] at hfind
      rw [findOwned_cons]
      rcases ha : (a.id == id) with _ | _
      · rw [ha] at hfind
        simp only [Bool.cond_false] at hfind
        simp only [Bool.false_and, Bool.cond_false]
        exact ih hfind
      · rw [ha] at hfind
        simp only [Bool.cond_true] at hfind
        injection hfind with he
        subst he
        simp [howner]

/-- Helper: after replacing the id-matching rows, the id lookup returns the
replacement. -/
theorem replaceById_find (id : Nat) (row item : Listing) (l : List Listing)
    (hrow : row.id = id) (hfind : findById id l = some item) :
    findById id (replaceById id row l) = some row := by
  induction l with
  | nil => simp [findById] at hfind
  | cons a t ih =>
      rw [findById_cons] at hfind
      rw [replaceById_cons, findById_cons]
      by_cases ha : a.id = id
      · rw [if_pos ha]
        simp [hrow]
      · rw [if_neg ha]
        have ha2 : (a.id == id) = false := by simp [ha]
        rw [ha2] at hfind
        simp only [Bool.cond_false] at hfind
        rw [ha2]
        simp only [Bool.cond_false]
        exact ih hfind

/-- Helper: replacing the id-rows by `row` and then by `item` restores a
list in which `item` was the unique id-row. -/
theorem replaceById_cancel (id : Nat) (item row : Listing) (l : List Listing)
    (hrow : row.id = id)
    (huniq : ∀ p ∈ l, p.id = id → p = item) :
    replaceById id item (replaceById id row l) = l := by
  induction l with
  | nil => rfl
  | cons a t ih =>
      have ht : ∀ p ∈ t, p.id = id → p = item :=
        fun p hp => huniq p (List.mem_cons_of_mem a hp)
      rw [replaceById_cons, replaceById_cons]
      by_cases ha : a.id = id
      · rw [if_pos ha]
        rw [if_pos hrow]
        rw [ih ht, huniq a (List.mem_cons_self a t) ha]
      · rw [if_neg ha, if_neg ha, ih ht]

/-- Helper: one mark-sold run on an owned listing flips only the sold flag. -/
theorem markSold_run (s : DB) (uid id : Nat) (item : Listing)
    (hfind : findById id s.products = some item)
    (howner : item.seller_id = uid)
    (hprice : 0 ≤ item.price) :
    markSold (AuthInput.goodToken uid) id true s =
      { resp := some { status := 200, message := "Product updated successfully",
                       productBody := none },
        state := { s with products := replaceById id { item with sold := !item.sold } s.products },
        trace := [Ev.dbUpdate id] } := by
  have hfo := findOwned_of_findById id uid s.products item hfind howner
  simp only [markSold, hfind]
  simp only [putProducts, authenticateToken, multerStage, markSoldReq]
  unfold updateHandler
  dsimp only [PriceField.supplied, PriceField.parse]
  rw [hfo]
  dsimp only
  simp [fieldOr_self, not_lt.mpr hprice]

/-! ### C9 -/

/-- C9 (confirmed): on an owned listing, the first mark-sold call replaces
the row by the same row with the sold flag negated, a lookup after one call
observes the negated flag, and a second mark-sold call returns the state to
exactly the initial (zero-call) state. -/
theorem c9_marksold_toggle (s : DB) (uid id : Nat) (item : Listing)
    (hnodup : (s.products.map Listing.id).Nodup)
    (hfind : findById id s.products = some item)
    (howner : item.seller_id = uid)
    (hprice : 0 ≤ item.price) :
    (markSold (AuthInput.goodToken uid) id true s).state.products =
      replaceById id { item with sold := !item.sold } s.products ∧
    findById id (markSold (AuthInput.goodToken uid) id true s).state.products =
      some { item with sold := !item.sold } ∧
    (markSold (AuthInput.goodToken uid) id true
      (markSold (AuthInput.goodToken uid) id true s).state).state = s := by
  have hid : item.id = id := by simpa using List.find?_some hfind
  have hmem : item ∈ s.products := List.mem_of_find?_eq_some hfind
  have hrun1 := markSold_run s uid id item hfind howner hprice
  have hfind1 : findById id
      (replaceById id { item with sold := !item.sold } s.products) =
      some { item with sold := !item.sold } :=
    replaceById_find id { item with sold := !item.sold } item s.products hid hfind
  have huniq : ∀ p ∈ s.products, p.id = id → p = item := by
    intro p hp hpid
    exact List.inj_on_of_nodup_map hnodup hp hmem (hpid.trans hid.symm)
  refine ⟨by rw [hrun1], by rw [hrun1]; exact hfind1, ?_⟩
  rw [hrun1]
  have hrun2 := markSold_run
    { s with products := replaceById id { item with sold := !item.sold } s.products }
    uid id { item with sold := !item.sold } hfind1 howner hprice
  rw [hrun2]
  have hx : ({ { item with sold := !item.sold } with
      sold := !({ item with sold := !item.sold } : Listing).sold } : Listing) = item := by
    cases item
    simp
  rw [hx]
  rw [replaceById_cancel id item { item with sold := !item.sold } s.products hid huniq]

/-! ### The reachable-state invariant for the dangling-reference analysis -/

theorem good_initDB : Good initDB := by
  constructor <;> simp [initDB]

theorem danglingFree_of_good (s : DB) (h : Good s) : danglingFree s = true := by
  rw [danglingFree, List.all_eq_true]
  intro p hp
  rcases hio : p.image_url with _ | r
  · rfl
  · exact decide_eq_true_eq.mpr (h.dangling p hp r hio)

theorem findOwned_props (id uid : Nat) (l : List Listing) (p : Listing)
    (h : findOwned id uid l = some p) :
    p ∈ l ∧ p.id = id ∧ p.seller_id = uid := by
  have h2 := List.find?_some h
  simp only [Bool.and_eq_true, beq_iff_eq] at h2
  exact ⟨List.mem_of_find?_eq_some h, h2.1, h2.2⟩

theorem mem_replaceById (id : Nat) (row : Listing) (l : List Listing)
    (p : Listing) (hp : p ∈ replaceById id row l) :
    p = row ∨ (p ∈ l ∧ p.id ≠ id) := by
  unfold replaceById at hp
  obtain ⟨a, ha, he⟩ := List.mem_map.mp hp
  by_cases hc : a.id = id
  · rw [if_pos hc] at he
    exact Or.inl he.symm
  · rw [if_neg hc] at he
    exact Or.inr ⟨he ▸ ha, he ▸ hc⟩

theorem map_id_replaceById (id : Nat) (row : Listing) (l : List Listing)
    (hrow : row.id = id) :
    (replaceById id row l).map Listing.id = l.map Listing.id := by
  induction l with
  | nil => rfl
  | cons a t ih =>
      rw [replaceById_cons, List.map_cons, List.map_cons, ih]
      by_cases hc : a.id = id
      · rw [if_pos hc, hrow, hc]
      · rw [if_neg hc]

theorem mem_removeById (id : Nat) (l : List Listing) (p : Listing) :
    p ∈ removeById id l ↔ p ∈ l ∧ p.id ≠ id := by
  unfold removeById
  rw [List.mem_filter]
  simp [bne_iff_ne]

/-- Helper: storing a fresh blob preserves the invariant. -/
theorem good_store (s : DB) (e : String) (h : Good s) :
    Good { s with blobs := (s.blobs ++ [{ stamp := s.clock, ext := e }]),
                  clock := s.clock + 1 } := by
  constructor
  · intro p hp r hr
    exact List.mem_append_left _ (h.dangling p hp r hr)
  · intro b hb
    rcases List.mem_append.mp hb with hb1 | hb2
    · exact Nat.lt_succ_of_lt (h.fresh b hb1)
    · rw [List.mem_singleton.mp hb2]
      exact Nat.lt_succ_self _
  · exact h.uniqueRef
  · exact h.idBound
  · exact h.idNodup
  · exact h.priceNonneg

/-- Helper: under the invariant, no stored row references a blob whose stamp
is not strictly below the clock. -/
theorem refs_ne_fresh (s : DB) (h : Good s) (r : BlobRef)
    (hr : s.clock ≤ r.stamp) :
    ∀ p ∈ s.products, p.image_url ≠ some r := by
  intro p hp he
  have h1 := h.dangling p hp r he
  have h2 := h.fresh r h1
  omega

/-- Helper: erasing a blob referenced by no row preserves the invariant. -/
theorem good_erase_unref (s : DB) (r : BlobRef) (h : Good s)
    (hno : ∀ p ∈ s.products, p.image_url ≠ some r) :
    Good { s with blobs := s.blobs.erase r } := by
  constructor
  · intro p hp r2 hr2
    have hne : r2 ≠ r := fun he => hno p hp (he ▸ hr2)
    exact (List.mem_erase_of_ne hne).mpr (h.dangling p hp r2 hr2)
  · intro b hb
    exact h.fresh b (List.mem_of_mem_erase hb)
  · exact h.uniqueRef
  · exact h.idBound
  · exact h.idNodup
  · exact h.priceNonneg

/-- Helper: appending a fresh row whose reference is stored and unshared
preserves the invariant. -/
theorem good_append (s : DB) (row : Listing) (h : Good s)
    (hid : row.id = s.nextId) (h0 : 0 ≤ row.price)
    (himg : ∀ r, row.image_url = some r → r ∈ s.blobs ∧
      ∀ p ∈ s.products, p.image_url ≠ some r) :
    Good { s with products := (s.products ++ [row]),
                  nextId := s.nextId + 1 } := by
  constructor
  · intro p hp r hr
    rcases List.mem_append.mp hp with hp1 | hp2
    · exact h.dangling p hp1 r hr
    · rw [List.mem_singleton.mp hp2] at hr
      exact (himg r hr).1
  · exact h.fresh
  · intro p hp q hq r hpr hqr
    rcases List.mem_append.mp hp with hp1 | hp2 <;>
      rcases List.mem_append.mp hq with hq1 | hq2
    · exact h.uniqueRef p hp1 q hq1 r hpr hqr
    · rw [List.mem_singleton.mp hq2] at hqr
      exact absurd hpr ((himg r hqr).2 p hp1)
    · rw [List.mem_singleton.mp hp2] at hpr
      exact absurd hqr ((himg r hpr).2 q hq1)
    · rw [List.mem_singleton.mp hp2, List.mem_singleton.mp hq2]
  · intro p hp
    rcases List.mem_append.mp hp with hp1 | hp2
    · exact Nat.lt_succ_of_lt (h.idBound p hp1)
    · rw [List.mem_singleton.mp hp2, hid]
      exact Nat.lt_succ_self _
  · rw [List.map_append]
    rw [List.nodup_append]
    refine ⟨h.idNodup, List.nodup_singleton _, ?_⟩
    intro a ha hb
    obtain ⟨p, hp, hpe⟩ := List.mem_map.mp ha
    rw [List.map_singleton, List.mem_singleton] at hb
    have := h.idBound p hp
    omega
  · intro p hp
    rcases List.mem_append.mp hp with hp1 | hp2
    · exact h.priceNonneg p hp1
    · rw [List.mem_singleton.mp hp2]
      exact h0

/-- Helper: replacing the unique id-row by a row whose reference lies in a
sub-collection `B` of the blobs, while every other row also keeps its
reference inside `B`, preserves the invariant. -/
theorem good_replace_general (s : DB) (B : List BlobRef) (id : Nat)
    (row product : Listing) (h : Good s)
    (hmem : product ∈ s.products) (hpid : product.id = id) (hrid : row.id = id)
    (h0 : 0 ≤ row.price)
    (hBsub : ∀ b ∈ B, b ∈ s.blobs)
    (hrowref : ∀ r, row.image_url = some r → r ∈ B ∧
      ∀ p ∈ s.products, p ≠ product → p.image_url ≠ some r)
    (holdref : ∀ p ∈ s.products, p.id ≠ id → ∀ r, p.image_url = some r → r ∈ B) :
    Good { products := replaceById id row s.products, blobs := B,
           nextId := s.nextId, clock := s.clock } := by
  constructor
  · intro p hp r hr
    rcases mem_replaceById id row s.products p hp with he | ⟨hpin, hpne⟩
    · exact (hrowref r (he ▸ hr)).1
    · exact holdref p hpin hpne r hr
  · intro b hb
    exact h.fresh b (hBsub b hb)
  · intro p hp q hq r hpr hqr
    rcases mem_replaceById id row s.products p hp with hep | ⟨hpin, hpne⟩ <;>
      rcases mem_replaceById id row s.products q hq with heq | ⟨hqin, hqne⟩
    · rw [hep, heq]
    · subst hep
      have hqnp : q ≠ product := fun he => hqne (he ▸ hpid)
      exact absurd hqr ((hrowref r hpr).2 q hqin hqnp)
    · subst heq
      have hpnp : p ≠ product := fun he => hpne (he ▸ hpid)
      exact absurd hpr ((hrowref r hqr).2 p hpin hpnp)
    · exact h.uniqueRef p hpin q hqin r hpr hqr
  · intro p hp
    rcases mem_replaceById id row s.products p hp with he | ⟨hpin, _⟩
    · rw [he, hrid, ← hpid]
      exact h.idBound product hmem
    · exact h.idBound p hpin
  · rw [map_id_replaceById id row s.products hrid]
    exact h.idNodup
  · intro p hp
    rcases mem_replaceById id row s.products p hp with he | ⟨hpin, _⟩
    · exact he ▸ h0
    · exact h.priceNonneg p hpin

/-- Helper: removing the id-rows, with the surviving references confined to
a sub-collection `B` of the blobs, preserves the invariant. -/
theorem good_remove_general (s : DB) (B : List BlobRef) (id : Nat) (h : Good s)
    (hBsub : ∀ b ∈ B, b ∈ s.blobs)
    (holdref : ∀ p ∈ s.products, p.id ≠ id → ∀ r, p.image_url = some r → r ∈ B) :
    Good { products := removeById id s.products, blobs := B,
           nextId := s.nextId, clock := s.clock } := by
  constructor
  · intro p hp r hr
    obtain ⟨hpin, hpne⟩ := (mem_removeById id s.products p).mp hp
    exact holdref p hpin hpne r hr
  · intro b hb
    exact h.fresh b (hBsub b hb)
  · intro p hp q hq r hpr hqr
    obtain ⟨hpin, _⟩ := (mem_removeById id s.products p).mp hp
    obtain ⟨hqin, _⟩ := (mem_removeById id s.products q).mp hq
    exact h.uniqueRef p hpin q hqin r hpr hqr
  · intro p hp
    obtain ⟨hpin, _⟩ := (mem_removeById id s.products p).mp hp
    exact h.idBound p hpin
  · exact List.Nodup.sublist (List.Sublist.map Listing.id (List.filter_sublist _))
      h.idNodup
  · intro p hp
    obtain ⟨hpin, _⟩ := (mem_removeById id s.products p).mp hp
    exact h.priceNonneg p hpin

/-- Helper: inversion of a successful multer stage. -/
theorem multerStage_ok_inv (f : FileUpload) (s : DB) (u : Option BlobRef)
    (s1 : DB) (tr : List Ev)
    (h : multerStage (some f) s = .ok (u, s1, tr)) :
    u = some { stamp := s.clock, ext := f.ext } ∧
    s1 = { s with blobs := (s.blobs ++ [{ stamp := s.clock, ext := f.ext }]),
                  clock := s.clock + 1 } ∧
    tr = [Ev.storeBlob { stamp := s.clock, ext := f.ext }] := by
  simp only [multerStage] at h
  split at h
  · exact Except.noConfusion h
  · split at h
    · exact Except.noConfusion h
    · injection h with h2
      rw [Prod.mk.injEq, Prod.mk.injEq] at h2
      exact ⟨h2.1.symm, h2.2.1.symm, h2.2.2.symm⟩

/-- Helper: the update handler preserves the invariant whenever it is not on
the bad path (a new image whose request then fails). -/
theorem good_updateHandler (uid id : Nat) (req : UpdateReq) (u : Option BlobRef)
    (dbOk : Bool) (s : DB) (tr : List Ev) (h : Good s)
    (hu : ∀ r, u = some r → r ∈ s.blobs ∧
      ∀ p ∈ s.products, p.image_url ≠ some r)
    (hsafe : u = none ∨ (priceBad req.price = false ∧ dbOk = true)) :
    Good (updateHandler uid id req u dbOk s tr).state := by
  unfold updateHandler
  rcases hfo : findOwned id uid s.products with _ | product
  · exact h
  · obtain ⟨hpmem, hpid, hpsell⟩ := findOwned_props id uid s.products product hfo
    rcases u with _ | rNew
    · dsimp only
      rcases hpp : (if req.price.supplied then req.price.parse
          else some product.price) with _ | q
      · dsimp only
        exact h
      · dsimp only
        by_cases hq : q < 0
        · rw [if_pos hq]
          exact h
        · rw [if_neg hq]
          rcases dbOk with _ | _
          · rw [if_neg (by simp)]
            exact h
          · rw [if_pos rfl]
            refine good_replace_general s s.blobs id _ product h hpmem hpid hpid
              (not_lt.mp hq) (fun b hb => hb) ?_ ?_
            · intro r hr
              refine ⟨h.dangling product hpmem r hr, ?_⟩
              intro p hp hne he
              exact hne (h.uniqueRef p hp product hpmem r he hr)
            · intro p hp hne r hr
              exact h.dangling p hp r hr
    · have hsafe2 : priceBad req.price = false ∧ dbOk = true := by
        rcases hsafe with h1 | h2
        · exact Option.noConfusion h1
        · exact h2
      obtain ⟨hpb, hdb⟩ := hsafe2
      subst hdb
      obtain ⟨hrmem, hrnot⟩ := hu rNew rfl
      have hprod0 : 0 ≤ product.price := h.priceNonneg product hpmem
      have hparse : ∃ q, (if req.price.supplied then req.price.parse
          else some product.price) = some q ∧ (0:ℚ) ≤ q := by
        rcases hpc : req.price with _ | _ | _ | q0
        · exact ⟨product.price, rfl, hprod0⟩
        · rw [hpc] at hpb
          simp [priceBad] at hpb
        · rw [hpc] at hpb
          simp [priceBad] at hpb
        · rw [hpc] at hpb
          simp only [priceBad, decide_eq_false_iff_not, not_lt] at hpb
          exact ⟨q0, rfl, hpb⟩
      obtain ⟨q, hqe, hq0⟩ := hparse
      dsimp only
      rcases hio : product.image_url with _ | old
      · dsimp only
        rw [hqe]
        dsimp only
        rw [if_neg (not_lt.mpr hq0), if_pos rfl]
        refine good_replace_general s s.blobs id _ product h hpmem hpid hpid hq0
          (fun b hb => hb) ?_ ?_
        · intro r hr
          injection hr with hr2
          subst hr2
          exact ⟨hrmem, fun p hp _ => hrnot p hp⟩
        · intro p hp hne r hr
          exact h.dangling p hp r hr
      · dsimp only
        by_cases hob : old ∈ s.blobs
        · rw [if_pos hob]
          dsimp only
          rw [hqe]
          dsimp only
          rw [if_neg (not_lt.mpr hq0), if_pos rfl]
          have hone : old ≠ rNew := by
            intro he
            exact hrnot product hpmem (he ▸ hio)
          refine good_replace_general s (s.blobs.erase old) id _ product h hpmem
            hpid hpid hq0 (fun b hb => List.mem_of_mem_erase hb) ?_ ?_
          · intro r hr
            injection hr with hr2
            subst hr2
            exact ⟨(List.mem_erase_of_ne (Ne.symm hone)).mpr hrmem,
              fun p hp _ => hrnot p hp⟩
          · intro p hp hne r hr
            have hrold : r ≠ old := by
              intro he
              subst he
              have hpe := h.uniqueRef p hp product hpmem r hr hio
              exact hne (hpe ▸ hpid)
            exact (List.mem_erase_of_ne hrold).mpr (h.dangling p hp r hr)
        · rw [if_neg hob]
          dsimp only
          rw [hqe]
          dsimp only
          rw [if_neg (not_lt.mpr hq0), if_pos rfl]
          refine good_replace_general s s.blobs id _ product h hpmem hpid hpid hq0
            (fun b hb => hb) ?_ ?_
          · intro r hr
            injection hr with hr2
            subst hr2
            exact ⟨hrmem, fun p hp _ => hrnot p hp⟩
          · intro p hp hne r hr
            exact h.dangling p hp r hr

/-- Helper: the update endpoint preserves the invariant on non-bad calls. -/
theorem good_update (auth : AuthInput) (id : Nat) (req : UpdateReq)
    (dbOk : Bool) (s : DB) (h : Good s)
    (hsafe : req.file = none ∨ (priceBad req.price = false ∧ dbOk = true)) :
    Good (putProducts auth id req dbOk s).state := by
  rcases auth with _ | _ | uid
  · exact h
  · exact h
  · rcases hf : req.file with _ | f
    · simp only [putProducts, authenticateToken, multerStage, hf]
      exact good_updateHandler uid id req none dbOk s [] h
        (fun r hr => Option.noConfusion hr) (Or.inl rfl)
    · rcases hm : multerStage (some f) s with r | ⟨u, s1, tr⟩
      · simp only [putProducts, authenticateToken, hf, hm]
        exact h
      · obtain ⟨hu1, hs1, htr⟩ := multerStage_ok_inv f s u s1 tr hm
        subst hu1
        subst hs1
        subst htr
        simp only [putProducts, authenticateToken, hf, hm]
        refine good_updateHandler uid id req _ dbOk _ _
          (good_store s f.ext h) ?_ ?_
        · intro r hr
          injection hr with hr2
          subst hr2
          exact ⟨List.mem_append_right _ (List.mem_singleton_self _),
            fun p hp he => refs_ne_fresh s h _ (le_refl s.clock) p hp he⟩
        · rcases hsafe with h1 | h2
          · rw [hf] at h1
            exact Option.noConfusion h1
          · exact Or.inr h2

/-- Helper: the mark-sold flow preserves the invariant. -/
theorem good_sell (auth : AuthInput) (id : Nat) (dbOk : Bool) (s : DB)
    (h : Good s) : Good (markSold auth id dbOk s).state := by
  unfold markSold
  rcases hfi : findById id s.products with _ | item
  · exact h
  · dsimp only
    exact good_update auth id (markSoldReq item) dbOk s h (Or.inl rfl)

/-- Helper: the create handler preserves the invariant. -/
theorem good_createHandler (uid : Nat) (req : CreateReq) (u : Option BlobRef)
    (dbOk : Bool) (s : DB) (tr : List Ev) (h : Good s)
    (hu : ∀ r, u = some r → r ∈ s.blobs ∧
      ∀ p ∈ s.products, p.image_url ≠ some r) :
    Good (createHandler uid req u dbOk s tr).state := by
  have hclean : Good (unlinkNew u s tr).1 := by
    rcases u with _ | r
    · exact h
    · exact good_erase_unref s r h ((hu r rfl).2)
  unfold createHandler
  rcases hreq : createRequiredOk req with _ | _
  · rw [if_pos rfl]
    exact hclean
  · rw [if_neg (by simp)]
    rcases hpar : req.price.parse with _ | q
    · dsimp only
      exact hclean
    · dsimp only
      by_cases hq : q < 0
      · rw [if_pos hq]
        exact hclean
      · rw [if_neg hq]
        rcases dbOk with _ | _
        · rw [if_neg (by simp)]
          exact hclean
        · rw [if_pos rfl]
          exact good_append s _ h rfl (not_lt.mp hq) (fun r hr => hu r hr)

/-- Helper: the create endpoint preserves the invariant. -/
theorem good_create (auth : AuthInput) (req : CreateReq) (dbOk : Bool)
    (s : DB) (h : Good s) : Good (postProducts auth req dbOk s).state := by
  rcases auth with _ | _ | uid
  · exact h
  · exact h
  · rcases hf : req.file with _ | f
    · simp only [postProducts, authenticateToken, multerStage, hf]
      exact good_createHandler uid req none dbOk s [] h
        (fun r hr => Option.noConfusion hr)
    · rcases hm : multerStage (some f) s with r | ⟨u, s1, tr⟩
      · simp only [postProducts, authenticateToken, hf, hm]
        exact h
      · obtain ⟨hu1, hs1, htr⟩ := multerStage_ok_inv f s u s1 tr hm
        subst hu1
        subst hs1
        subst htr
        simp only [postProducts, authenticateToken, hf, hm]
        refine good_createHandler uid req _ dbOk _ _
          (good_store s f.ext h) ?_
        intro r hr
        injection hr with hr2
        subst hr2
        exact ⟨List.mem_append_right _ (List.mem_singleton_self _),
          fun p hp he => refs_ne_fresh s h _ (le_refl s.clock) p hp he⟩

/-- Helper: a delete whose record deletion succeeds preserves the invariant. -/
theorem good_delete_op (auth : AuthInput) (id : Nat) (s : DB) (h : Good s) :
    Good (deleteProducts auth id true s).state := by
  rcases auth with _ | _ | uid
  · exact h
  · exact h
  · simp only [deleteProducts, authenticateToken]
    rcases hfo : findOwned id uid s.products with _ | product
    · exact h
    · dsimp only
      obtain ⟨hpmem, hpid, _⟩ := findOwned_props id uid s.products product hfo
      rcases hio : product.image_url with _ | old
      · dsimp only
        rw [if_pos trivial]
        exact good_remove_general s s.blobs id h (fun b hb => hb)
          (fun p hp hne r hr => h.dangling p hp r hr)
      · dsimp only
        by_cases hob : old ∈ s.blobs
        · rw [if_pos hob]
          dsimp only
          rw [if_pos trivial]
          refine good_remove_general s (s.blobs.erase old) id h
            (fun b hb => List.mem_of_mem_erase hb) ?_
          intro p hp hne r hr
          have hrold : r ≠ old := by
            intro he
            subst he
            have hpe := h.uniqueRef p hp product hpmem r hr hio
            exact hne (hpe ▸ hpid)
          exact (List.mem_erase_of_ne hrold).mpr (h.dangling p hp r hr)
        · rw [if_neg hob]
          dsimp only
          rw [if_pos trivial]
          exact good_remove_general s s.blobs id h (fun b hb => hb)
            (fun p hp hne r hr => h.dangling p hp r hr)

/-- Helper: every non-bad operation preserves the invariant. -/
theorem good_applyOp (op : Op) (s : DB) (h : Good s)
    (hop : badOp op = false) : Good (applyOp op s) := by
  rcases op with ⟨auth, req, dbOk⟩ | ⟨auth, oid, req, dbOk⟩ |
    ⟨auth, oid, dbOk⟩ | ⟨auth, oid, dbOk⟩
  · exact good_create auth req dbOk s h
  · apply good_update auth oid req dbOk s h
    rcases hf : req.file with _ | f
    · exact Or.inl rfl
    · right
      simp [badOp, hf] at hop
      exact ⟨hop.1, hop.2⟩
  · have hdb : dbOk = true := by
      simp only [badOp] at hop
      simpa using hop
    subst hdb
    exact good_delete_op auth oid s h
  · exact good_sell auth oid dbOk s h

/-- Helper: the invariant holds along every non-bad operation sequence. -/
theorem good_runOps (ops : List Op) (s : DB) (h : Good s)
    (hops : ∀ op ∈ ops, badOp op = false) : Good (runOps ops s) := by
  induction ops generalizing s with
  | nil => exact h
  | cons op rest ih =>
      exact ih (applyOp op s)
        (good_applyOp op s h (hops op (List.mem_cons_self op rest)))
        (fun o ho => hops o (List.mem_cons_of_mem op ho))

/-! ### C1 -/

/-- C1 counterexample: from the empty state, create a listing with an image
and then update it with a new image and a negative price: the handler
deletes the old blob before validating, the validation fails, and the row is
left referencing a deleted blob — a reachable state violating the
dangling-reference invariant, so the claim is false on the code. -/
theorem c1_counterexample :
    danglingFree (runOps
      [Op.createOp (AuthInput.goodToken 1) demoCreate true,
       Op.updateOp (AuthInput.goodToken 1) 1 newImageBadPriceReq true]
      initDB) = false := by
  decide

/-- C1 (amended): in every state reachable from the initial empty state by
create, update, delete, and mark-sold operations none of which is an update
that supplies a new image and then fails (invalid supplied price or failing
record write) or a delete whose record deletion fails, every row whose
image reference is non-null references a blob that exists in the asset
store. -/
theorem c1_no_dangling (ops : List Op)
    (hops : ∀ op ∈ ops, badOp op = false) :
    danglingFree (runOps ops initDB) = true :=
  danglingFree_of_good _ (good_runOps ops initDB good_initDB hops)

/-- C1 witness: a concrete failure-free create, mark-sold, delete run. -/
theorem c1_witness :
    (∀ op ∈ [Op.createOp (AuthInput.goodToken 1) demoCreate true,
       Op.sellOp (AuthInput.goodToken 1) 1 true,
       Op.deleteOp (AuthInput.goodToken 1) 1 true], badOp op = false) ∧
    danglingFree (runOps
      [Op.createOp (AuthInput.goodToken 1) demoCreate true,
       Op.sellOp (AuthInput.goodToken 1) 1 true,
       Op.deleteOp (AuthInput.goodToken 1) 1 true] initDB) = true :=
  ⟨by decide, c1_no_dangling _ (by decide)⟩

/-- C9 witness: the toggle behaviour at the concrete demo listing. -/
theorem c9_witness :
    (markSold (AuthInput.goodToken 1) 1 true demoState).state.products =
      replaceById 1 { demoListing with sold := !demoListing.sold }
        demoState.products ∧
    findById 1 (markSold (AuthInput.goodToken 1) 1 true demoState).state.products =
      some { demoListing with sold := !demoListing.sold } ∧
    (markSold (AuthInput.goodToken 1) 1 true
      (markSold (AuthInput.goodToken 1) 1 true demoState).state).state =
      demoState :=
  c9_marksold_toggle demoState 1 1 demoListing (by decide) (by decide) rfl
    (by decide)

end Chuka
